import Mathlib

/-!
Verification of the derby-react integration shim.

The repository bridges React and DerbyJS/Racer with two utilities:

* `useRacerState` (src/racer.ts): a React hook binding a component state
  variable to a path in a Racer model.
* `renderReactComponent` (src/derby.ts): mounts a React tree inside a Derby
  component and unmounts it on the Derby component's destroy event.

This file gives a shallow embedding of both utilities together with the
external primitives they invoke (Racer store operations, Racer event
dispatch, React useEffect dependency comparison, React DOM roots, Derby
destroy events), and proves the specified properties about them.

Conventions: a Racer path is a list of segments (`List String`); a store
maps a path to `Option V`, with `none` standing for JavaScript
null/undefined (absent).  JavaScript object identities (model roots, event
contexts, listeners, React roots) are modelled as natural-number ids.
-/

namespace DerbyReact

/-- A hierarchical key-value store, as `useRacerState` observes it through
the scoped model: each full path holds an optional value; `none` models a
JavaScript null/undefined (no value). -/
def Store (V : Type) : Type := List String → Option V

/-- The empty store: no path holds a value. -/
def emptyStore (V : Type) : Store V := fun _ => none

/-- Racer `model.set(value)` on a scoped model at path `p`: a direct
overwrite of the value at that path (src/racer.ts line 57 calls it). -/
def setStore {V : Type} (s : Store V) (p : List String) (v : V) : Store V :=
  fun q => if q = p then some v else s q

/-- Racer `model.del()` at path `p`: removes the value at that path.  Used
only by external mutations in traces, not by the hook itself. -/
def delStore {V : Type} (s : Store V) (p : List String) : Store V :=
  fun q => if q = p then none else s q

/-- Racer `model.getDeepCopy()` on a scoped model at path `p`: reads the
current value at the path (a deep copy in JS; values here are pure, so the
copy is the value itself), `none` when absent (src/racer.ts line 31). -/
def getDeepCopy {V : Type} (s : Store V) (p : List String) : Option V := s p

/-- Racer `model.setNull(value)` at path `p`: writes `value` only when the
path currently holds no value; otherwise leaves the store untouched
(src/racer.ts line 33 calls it).  The Bool records whether a write
happened. -/
def setNullW {V : Type} (s : Store V) (p : List String) (d : V) :
    Store V × Bool :=
  match s p with
  | none => (setStore s p d, true)
  | some _ => (s, false)

/-- One invocation of the body of `useRacerState` (src/racer.ts lines
31-34), as it acts on the store: read `modelValue = getDeepCopy() ??
defaultValue`, then when a default was supplied call `setNull(default)`.
Returns the effective current value handed to the caller, the store after
the invocation, and whether the default was written this invocation. -/
def useRacerStateStep {V : Type} (s : Store V) (p : List String)
    (d : Option V) : Option V × Store V × Bool :=
  let modelValue : Option V :=
    match getDeepCopy s p with
    | some v => some v
    | none => d
  match d with
  | some dv =>
      let r := setNullW s p dv
      (modelValue, r.1, r.2)
  | none => (modelValue, s, false)

/-- The setter returned by `useRacerState` (src/racer.ts lines 56-58):
`setModelValue(newValue)` is exactly `scopedModel.set(newValue)`, a direct
overwrite at the bound path. -/
def setModelValue {V : Type} (s : Store V) (p : List String) (v : V) :
    Store V := setStore s p v

/-- An event in the lifetime of one consumer of `useRacerState` bound to a
fixed path: an invocation of the hook (a React render) with an optional
default, or an external store mutation (a set or a delete at some path). -/
inductive StoreEvt (V : Type) : Type
  | invoke (d : Option V)
  | extSet (q : List String) (v : V)
  | extDel (q : List String)

/-- Runs a lifetime of events for a consumer bound to path `p`: each
`invoke` runs the body of `useRacerState` (src/racer.ts lines 31-34, which
executes on every render), each external event mutates the store directly.
Returns the final store and the total number of default writes the hook
performed over the lifetime. -/
def runEvts {V : Type} (p : List String) :
    Store V → List (StoreEvt V) → Store V × Nat
  | s, [] => (s, 0)
  | s, StoreEvt.invoke d :: rest =>
      let r := useRacerStateStep s p d
      let k := runEvts p r.2.1 rest
      (k.1, (if r.2.2 then 1 else 0) + k.2)
  | s, StoreEvt.extSet q v :: rest => runEvts p (setStore s q v) rest
  | s, StoreEvt.extDel q :: rest => runEvts p (delStore s q) rest

/-- C1: for a scoped path holding no value and a supplied default, one
invocation of useRacerState writes the default into the store at the path
and returns the default as the current value. -/
theorem C1_default_written_and_returned {V : Type} (s : Store V)
    (p : List String) (d : V) (h : s p = none) :
    (useRacerStateStep s p (some d)).1 = some d ∧
      (useRacerStateStep s p (some d)).2.1 p = some d := by
  unfold useRacerStateStep setNullW getDeepCopy setStore
  rw [h]
  simp

/-- Witness for C1 at a concrete input: the empty store, path
`_page.counter`, default `1`. -/
theorem C1_default_written_and_returned_witness :
    (useRacerStateStep (emptyStore Nat) ["_page", "counter"] (some 1)).1
        = some 1 ∧
      (useRacerStateStep (emptyStore Nat) ["_page", "counter"]
        (some 1)).2.1 ["_page", "counter"] = some 1 :=
  C1_default_written_and_returned (emptyStore Nat) ["_page", "counter"] 1
    rfl

/-- C2: for a scoped path holding an existing value and any supplied
default, an invocation of useRacerState leaves the store unchanged at
every path (in particular the existing value survives) and returns the
existing value. -/
theorem C2_existing_value_preserved {V : Type} (s : Store V)
    (p : List String) (v : V) (d : V) (h : s p = some v) :
    (useRacerStateStep s p (some d)).1 = some v ∧
      ∀ q, (useRacerStateStep s p (some d)).2.1 q = s q := by
  unfold useRacerStateStep setNullW getDeepCopy
  rw [h]
  exact ⟨rfl, fun _ => rfl⟩

/-- Witness for C2 at a concrete input: store holding `7` at
`_page.counter`, default `1`. -/
theorem C2_existing_value_preserved_witness :
    (useRacerStateStep (setStore (emptyStore Nat) ["_page", "counter"] 7)
        ["_page", "counter"] (some 1)).1 = some 7 ∧
      ∀ q, (useRacerStateStep
          (setStore (emptyStore Nat) ["_page", "counter"] 7)
          ["_page", "counter"] (some 1)).2.1 q
        = setStore (emptyStore Nat) ["_page", "counter"] 7 q :=
  C2_existing_value_preserved
    (setStore (emptyStore Nat) ["_page", "counter"] 7)
    ["_page", "counter"] 7 1 (by simp [setStore])

/-- C3 counterexample: the claim says the default is written at most once
over the consumer's lifetime and that later invocations perform no further
default writes regardless of the store's state.  On the code, `setNull`
runs on every render: starting from the empty store at path
`_page.counter` with default `1`, the lifetime "invoke, external delete,
invoke" performs two default writes — the second invocation writes the
default again. -/
theorem C3_counterexample_two_default_writes :
    (runEvts ["_page", "counter"] (emptyStore Nat)
        [StoreEvt.invoke (some 1), StoreEvt.extDel ["_page", "counter"],
          StoreEvt.invoke (some 1)]).2 = 2 := by
  decide

/-- C3 amended: on every invocation (not only the first) where a default
is supplied, the hook performs a null-coalescing write: the default is
written exactly when the store holds no value at the bound path at that
invocation, and the value at the path afterwards is the prior value when
one existed and the default otherwise. -/
theorem C3_amended_default_write_every_invocation {V : Type} (s : Store V)
    (p : List String) (d : Option V) :
    (useRacerStateStep s p d).2.2 = (d.isSome && (s p).isNone) ∧
      (useRacerStateStep s p d).2.1 p
        = if d.isSome && (s p).isNone then d else s p := by
  unfold useRacerStateStep setNullW getDeepCopy setStore
  cases d with
  | none => cases h : s p <;> simp [h]
  | some dv => cases h : s p <;> simp [h]

/-- C4: the setter returned by useRacerState performs a single direct
overwrite of the store value at the bound path: the resulting store is
pointwise described by an update that holds the new value at the path and
the untouched prior store elsewhere; in particular the result at the bound
path does not depend on the prior value there (no read, no merge), and an
existing value is overwritten. -/
theorem C4_setter_direct_overwrite {V : Type} (s : Store V)
    (p : List String) (v : V) :
    (∀ q, setModelValue s p v q = if q = p then some v else s q) ∧
      (∀ w, setModelValue (setStore s p w) p v p = some v) := by
  constructor
  · intro q
    rfl
  · intro w
    simp [setModelValue, setStore]

/-- A scoped Racer model handle as `useRacerState` receives it: a
JavaScript object (with its own identity `objId`, possibly fresh on every
render) carrying a reference to the root model (`rootId`), its path, and
its event context (src/racer.ts lines 42-44 read these three). -/
structure ScopedModel : Type where
  objId : Nat
  rootId : Nat
  mpath : List String
  ectx : Option Nat
deriving DecidableEq

/-- The three comparison keys `useRacerState` extracts from the scoped
model for use as useEffect dependencies (src/racer.ts lines 42-44):
`scopedModel.root`, `scopedModel.path()`, `scopedModel._eventContext`. -/
def depKeys (m : ScopedModel) : Nat × List String × Option Nat :=
  (m.rootId, m.mpath, m.ectx)

/-- A Racer change listener as registered by the hook's effect
(src/racer.ts lines 46-49): its identity, the path the handle is scoped
to, and the event context it was attached with. -/
structure Listener : Type where
  lid : Nat
  lpath : List String
  lctx : Option Nat
deriving DecidableEq

/-- Racer `model.on('all', '**', ...)`: registers a listener
(src/racer.ts line 47). -/
def addListener (ls : List Listener) (l : Listener) : List Listener :=
  ls ++ [l]

/-- Racer `model.removeListener('all', listener)`: removes the given
listener, identified by its id (src/racer.ts line 51). -/
def removeListener (ls : List Listener) (lid : Nat) : List Listener :=
  ls.filter (fun l => l.lid ≠ lid)

/-- The persistent state of the hook's useEffect between renders: the
dependency triple it last ran with and the id of the listener its setup
registered. -/
structure SubState : Type where
  deps : Nat × List String × Option Nat
  listenerId : Nat
deriving DecidableEq

/-- One render's pass over the hook's useEffect (src/racer.ts lines
45-53) under React's dependency semantics: when the dependency triple
equals the previous render's triple the effect does not run again; when
it differs, the previous cleanup removes the previously registered
listener and the setup registers a fresh listener at the handle's path
and event context.  Returns the new effect state, the store's listener
list, and whether a teardown-and-recreate happened. -/
def stepEffect (st : SubState) (ls : List Listener) (m : ScopedModel)
    (freshId : Nat) : SubState × List Listener × Bool :=
  if depKeys m = st.deps then (st, ls, false)
  else
    let ls1 := removeListener ls st.listenerId
    (⟨depKeys m, freshId⟩, addListener ls1 ⟨freshId, m.mpath, m.ectx⟩,
      true)

/-- C5: across invocations, the subscription is torn down and recreated
exactly when one of the three comparison keys differs from the previous
invocation; the keys ignore the handle object's own identity, so a
freshly constructed handle with equal keys leaves the effect state and
the listener list untouched. -/
theorem C5_subscription_keyed_on_three_keys (st : SubState)
    (ls : List Listener) (m : ScopedModel) (freshId : Nat) :
    ((stepEffect st ls m freshId).2.2 = true ↔ depKeys m ≠ st.deps) ∧
      (∀ n, depKeys { m with objId := n } = depKeys m) ∧
      (depKeys m = st.deps → stepEffect st ls m freshId = (st, ls, false))
    := by
  refine ⟨?_, fun n => rfl, fun h => by simp [stepEffect, h]⟩
  unfold stepEffect
  by_cases h : depKeys m = st.deps <;> simp [h]

/-- Witness for C5 at concrete inputs: a handle with a fresh object id
but unchanged keys does not tear down the subscription. -/
theorem C5_subscription_keyed_on_three_keys_witness :
    ((stepEffect ⟨(0, ["a"], none), 5⟩ [⟨5, ["a"], none⟩]
          ⟨99, 0, ["a"], none⟩ 6).2.2 = true ↔
        depKeys ⟨99, 0, ["a"], none⟩ ≠ (0, ["a"], none)) ∧
      (∀ n, depKeys { (⟨99, 0, ["a"], none⟩ : ScopedModel) with objId := n } = depKeys ⟨99, 0, ["a"], none⟩) ∧
      (depKeys ⟨99, 0, ["a"], none⟩ = (0, ["a"], none) →
        stepEffect ⟨(0, ["a"], none), 5⟩ [⟨5, ["a"], none⟩]
            ⟨99, 0, ["a"], none⟩ 6
          = (⟨(0, ["a"], none), 5⟩, [⟨5, ["a"], none⟩], false)) :=
  C5_subscription_keyed_on_three_keys ⟨(0, ["a"], none), 5⟩
    [⟨5, ["a"], none⟩] ⟨99, 0, ["a"], none⟩ 6

/-- Racer event pattern matching for the listener the hook registers:
`on('all', '**', ...)` on a model scoped to path `lpath` matches a
mutation event at path `epath` exactly when `epath` is at or beneath
`lpath`, i.e. `lpath` is a segment prefix of `epath`. -/
def listenerMatches (l : Listener) (epath : List String) : Bool :=
  l.lpath.isPrefixOf epath

/-- Racer event dispatch for one mutation event at path `epath`: the
listeners whose pattern matches are invoked. -/
def dispatchEvent (ls : List Listener) (epath : List String) :
    List Listener :=
  ls.filter (fun l => listenerMatches l epath)

/-- One consumer of the hook, bound to path `cpath`, with its React state
cell holding the last pushed value (the local mirror). -/
structure Consumer (V : Type) : Type where
  cpath : List String
  mirror : Option V

/-- Effect of one mutation event on a consumer: the callback registered
at src/racer.ts lines 47-48 runs exactly when the event matches the
consumer's bound path, and then pushes a fresh read of the store at that
path into the React state cell via setStateValue. -/
def notifyConsumer {V : Type} (s : Store V) (c : Consumer V)
    (epath : List String) : Consumer V :=
  if listenerMatches ⟨0, c.cpath, none⟩ epath then
    { c with mirror := getDeepCopy s c.cpath }
  else c

/-- C6: a listener registered at a bound path is invoked by a mutation
event exactly when the mutation is at or beneath that path; consequently
a consumer's callback and state push happen for events at or beneath its
path, and a mutation at a disjoint path leaves the consumer untouched
(no callback, no re-render trigger). -/
theorem C6_dispatch_only_at_or_beneath {V : Type} (l : Listener)
    (ls : List Listener) (e : List String) (s : Store V)
    (c : Consumer V) :
    (l ∈ dispatchEvent ls e ↔
        l ∈ ls ∧ l.lpath.isPrefixOf e = true) ∧
      (c.cpath.isPrefixOf e = false → notifyConsumer s c e = c) ∧
      (c.cpath.isPrefixOf e = true →
        notifyConsumer s c e = { c with mirror := s c.cpath }) := by
  refine ⟨?_, fun h => ?_, fun h => ?_⟩
  · simp [dispatchEvent, List.mem_filter, listenerMatches]
  · simp [notifyConsumer, listenerMatches, h]
  · simp [notifyConsumer, listenerMatches, h, getDeepCopy]

/-- Witness for C6 at concrete inputs: for a mutation at the sibling path
`_page.messageList.0`, a consumer bound to `_page.messageList.1` is not
in the dispatch list and its state cell is untouched. -/
theorem C6_dispatch_only_at_or_beneath_witness :
    ((⟨3, ["_page", "messageList", "1"], none⟩ : Listener) ∈
          dispatchEvent [⟨3, ["_page", "messageList", "1"], none⟩]
            ["_page", "messageList", "0"] ↔
        (⟨3, ["_page", "messageList", "1"], none⟩ : Listener) ∈
            [(⟨3, ["_page", "messageList", "1"], none⟩ : Listener)] ∧
          List.isPrefixOf ["_page", "messageList", "1"]
            ["_page", "messageList", "0"] = true) ∧
      (List.isPrefixOf ["_page", "messageList", "1"]
          ["_page", "messageList", "0"] = false →
        notifyConsumer (emptyStore Nat)
            ⟨["_page", "messageList", "1"], some 7⟩
            ["_page", "messageList", "0"]
          = ⟨["_page", "messageList", "1"], some 7⟩) ∧
      (List.isPrefixOf ["_page", "messageList", "1"]
          ["_page", "messageList", "0"] = true →
        notifyConsumer (emptyStore Nat)
            ⟨["_page", "messageList", "1"], some 7⟩
            ["_page", "messageList", "0"]
          = ⟨["_page", "messageList", "1"],
              emptyStore Nat ["_page", "messageList", "1"]⟩) :=
  C6_dispatch_only_at_or_beneath
    ⟨3, ["_page", "messageList", "1"], none⟩
    [⟨3, ["_page", "messageList", "1"], none⟩]
    ["_page", "messageList", "0"] (emptyStore Nat)
    ⟨["_page", "messageList", "1"], some 7⟩

/-- C7: tearing down the subscription removes exactly the one listener
the matching setup registered: when the setup registered a listener with
an id no existing listener carries, removing that id afterwards restores
the listener list exactly — the registered listener is gone and every
other listener is untouched. -/
theorem C7_teardown_removes_exactly_registered (ls : List Listener)
    (p : List String) (c : Option Nat) (lid : Nat)
    (h : ∀ l ∈ ls, l.lid ≠ lid) :
    removeListener (addListener ls ⟨lid, p, c⟩) lid = ls := by
  unfold removeListener addListener
  rw [List.filter_append]
  have h1 : ls.filter (fun l => l.lid ≠ lid) = ls :=
    List.filter_eq_self.mpr (by
      intro l hl
      simpa using h l hl)
  have h2 : [(⟨lid, p, c⟩ : Listener)].filter (fun l => l.lid ≠ lid)
      = [] := by simp
  rw [h1, h2, List.append_nil]

/-- Witness for C7 at concrete inputs: with one prior listener of id 1,
registering and then removing a listener of fresh id 2 restores the
original list. -/
theorem C7_teardown_removes_exactly_registered_witness :
    removeListener
        (addListener [⟨1, ["a"], none⟩] ⟨2, ["a", "b"], some 4⟩) 2
      = [⟨1, ["a"], none⟩] :=
  C7_teardown_removes_exactly_registered [⟨1, ["a"], none⟩] ["a", "b"]
    (some 4) 2 (by decide)

/-- Lifecycle status of one React DOM root, with `C` the type of rendered
content: never allocated, live (bound to its container, carrying its
construction options and its currently rendered content, if any), or
unmounted. -/
inductive RootStatus (C : Type) : Type
  | unused : RootStatus C
  | live (container : Nat) (opts : Nat) (content : Option C) : RootStatus C
  | unmounted : RootStatus C

/-- The React DOM runtime as the mount adapter sees it: an allocator of
root ids and the status of every root.  Containers and root options are
opaque tokens (`Nat`), passed through uninterpreted. -/
structure ReactDom (C : Type) : Type where
  nextId : Nat
  roots : Nat → RootStatus C

/-- React `createRoot(domContainer, reactRootOptions)` (src/derby.ts line
35): allocates a fresh root bound to the container with the given
options, not yet holding rendered content.  Returns the new runtime and
the created root's id. -/
def createRoot {C : Type} (dom : ReactDom C) (container : Nat)
    (opts : Nat) : ReactDom C × Nat :=
  (⟨dom.nextId + 1,
      fun i => if i = dom.nextId then RootStatus.live container opts none
        else dom.roots i⟩,
    dom.nextId)

/-- React `root.render(content)` (src/derby.ts line 39): renders content
into a live root; a root that is not live is left unchanged. -/
def renderRoot {C : Type} (dom : ReactDom C) (rid : Nat) (content : C) :
    ReactDom C :=
  ⟨dom.nextId,
    fun i =>
      if i = rid then
        match dom.roots rid with
        | RootStatus.live container opts _ =>
            RootStatus.live container opts (some content)
        | st => st
      else dom.roots i⟩

/-- React `root.unmount()` (src/derby.ts line 37): the root becomes
unmounted; unmounting again is a safe no-op. -/
def unmountRoot {C : Type} (dom : ReactDom C) (rid : Nat) : ReactDom C :=
  ⟨dom.nextId,
    fun i => if i = rid then RootStatus.unmounted else dom.roots i⟩

/-- A Derby component as the mount adapter uses it: the destroy-event
callbacks registered on it.  We model exactly the callbacks
`renderReactComponent` installs, each of which unmounts one root, so a
callback is represented by the id of the root it unmounts. -/
structure DerbyComponent : Type where
  destroyListeners : List Nat

/-- Derby `derbyComponent.on('destroy', () => reactRoot.unmount())`
(src/derby.ts lines 36-38): appends an unmount callback for the given
root. -/
def compOnDestroy (c : DerbyComponent) (rid : Nat) : DerbyComponent :=
  ⟨c.destroyListeners ++ [rid]⟩

/-- Firing of the Derby component's destroy event: every registered
destroy callback runs, each unmounting its root. -/
def fireDestroy {C : Type} (dom : ReactDom C) (c : DerbyComponent) :
    ReactDom C :=
  c.destroyListeners.foldl (fun d rid => unmountRoot d rid) dom

/-- Outcome of one call to the mount adapter: the React DOM runtime and
Derby component afterwards, and the returned handle — `some rid` exposing
the created root when the call returned normally, `none` when the initial
render threw before the return. -/
structure MountOutcome (C : Type) : Type where
  dom : ReactDom C
  comp : DerbyComponent
  result : Option Nat

/-- The mount adapter `renderReactComponent` (src/derby.ts lines 29-41),
in source order: create the root, register the unmount callback on the
host component's destroy event, then render the content and return
`{ reactRoot }`.  Whether the external `root.render` call throws is an
oracle argument `renderThrows`; a throw propagates, so the function
returns no handle but keeps the side effects performed before the
throw. -/
def renderReactComponent {C : Type} (dom : ReactDom C)
    (comp : DerbyComponent) (container : Nat) (content : C) (opts : Nat)
    (renderThrows : Bool) : MountOutcome C :=
  let r := createRoot dom container opts
  let comp1 := compOnDestroy comp r.2
  if renderThrows then ⟨r.1, comp1, none⟩
  else ⟨renderRoot r.1 r.2 content, comp1, some r.2⟩

/-- An event in the host component's lifetime after the mount adapter
returned: the destroy event fires, or something unrelated to this
adapter happens. -/
inductive HostEvt : Type
  | destroy : HostEvt
  | other : HostEvt
deriving DecidableEq

/-- Runs a host-component lifetime: each destroy event fires all
registered destroy callbacks; other events leave the React DOM runtime
alone. -/
def runHost {C : Type} (c : DerbyComponent) :
    ReactDom C → List HostEvt → ReactDom C
  | dom, [] => dom
  | dom, HostEvt.destroy :: rest => runHost c (fireDestroy dom c) rest
  | dom, HostEvt.other :: rest => runHost c dom rest

/-- Helper: firing the destroy callbacks unmounts exactly the roots with
a registered callback and leaves every other root's status unchanged. -/
theorem fireDestroy_roots {C : Type} (l : List Nat) (dom : ReactDom C)
    (i : Nat) :
    (l.foldl (fun d rid => unmountRoot d rid) dom).roots i
      = if i ∈ l then RootStatus.unmounted else dom.roots i := by
  induction l generalizing dom with
  | nil => simp
  | cons r rest ih =>
      rw [List.foldl_cons, ih]
      by_cases hr : i = r <;> by_cases hl : i ∈ rest <;>
        simp [unmountRoot, hr, hl]

/-- Helper: for a component carrying a destroy callback for root `rid`,
the root's status after a lifetime is unmounted when a destroy event
occurred and the starting status otherwise. -/
theorem runHost_roots_of_mem {C : Type} (c : DerbyComponent) (rid : Nat)
    (hmem : rid ∈ c.destroyListeners) (evts : List HostEvt)
    (dom : ReactDom C) :
    (runHost c dom evts).roots rid
      = if HostEvt.destroy ∈ evts then RootStatus.unmounted
        else dom.roots rid := by
  induction evts generalizing dom with
  | nil => simp [runHost]
  | cons e rest ih =>
      cases e with
      | destroy =>
          rw [runHost, ih]
          have hfd : (fireDestroy dom c).roots rid
              = RootStatus.unmounted := by
            rw [fireDestroy, fireDestroy_roots, if_pos hmem]
          by_cases h : HostEvt.destroy ∈ rest <;> simp [h, hfd]
      | other =>
          rw [runHost, ih]
          simp

/-- C8: after a normally returning call to renderReactComponent, the
created root stays live with the rendered content through any lifetime
without a destroy event, and is unmounted after any lifetime containing
one: the root's lifetime is bounded by the host component's, with no
earlier teardown and no leak past destruction. -/
theorem C8_root_lifetime_bounded_by_destroy {C : Type}
    (dom : ReactDom C) (comp : DerbyComponent) (container : Nat)
    (content : C) (opts : Nat) (evts : List HostEvt) :
    (runHost
          (renderReactComponent dom comp container content opts
            false).comp
          (renderReactComponent dom comp container content opts
            false).dom
          evts).roots dom.nextId
      = if HostEvt.destroy ∈ evts then RootStatus.unmounted
        else RootStatus.live container opts (some content) := by
  have hmem : dom.nextId ∈ (renderReactComponent dom comp container
      content opts false).comp.destroyListeners := by
    simp [renderReactComponent, compOnDestroy, createRoot]
  rw [runHost_roots_of_mem _ _ hmem]
  have hstart : (renderReactComponent dom comp container content opts
      false).dom.roots dom.nextId
      = RootStatus.live container opts (some content) := by
    simp [renderReactComponent, renderRoot, createRoot, compOnDestroy]
  rw [hstart]

/-- C10: even when the initial render throws (so the call returns no
handle), the unmount-on-destroy callback for the created root was
already registered beforehand, and a destroy event after the throw still
unmounts the created root. -/
theorem C10_destroy_callback_installed_before_render {C : Type}
    (dom : ReactDom C) (comp : DerbyComponent) (container : Nat)
    (content : C) (opts : Nat) :
    (renderReactComponent dom comp container content opts true).result
        = none ∧
      dom.nextId ∈ (renderReactComponent dom comp container content opts
          true).comp.destroyListeners ∧
      (fireDestroy
          (renderReactComponent dom comp container content opts true).dom
          (renderReactComponent dom comp container content opts
            true).comp).roots dom.nextId
        = RootStatus.unmounted := by
  refine ⟨rfl, by simp [renderReactComponent, compOnDestroy, createRoot],
    ?_⟩
  rw [fireDestroy, fireDestroy_roots, if_pos]
  simp [renderReactComponent, compOnDestroy, createRoot]

/-- The parameter list of the TypeScript declaration of
renderReactComponent (src/derby.ts lines 29-34), each with whether it is
declared optional: `derbyComponent`, `domContainer`, `reactComponent`,
and `reactRootOptions: RootOptions` — written with neither a `?` nor a
default, hence required. -/
def renderReactComponentParams : List (String × Bool) :=
  [("derbyComponent", false), ("domContainer", false),
    ("reactComponent", false), ("reactRootOptions", false)]

/-- The number of arguments the code's own doc-comment example
(src/derby.ts line 25) supplies to renderReactComponent. -/
def docExampleArgCount : Nat := 3

/-- C9: in the declared signature no parameter of renderReactComponent
is optional — in particular `reactRootOptions` is required — so the
three-argument call in the code's own doc example supplies fewer
arguments than the signature demands, contradicting the documented
optional-options contract; meanwhile every normally returning call does
return a handle exposing the created rendering root. -/
theorem C9_options_required_contradicts_docs {C : Type}
    (dom : ReactDom C) (comp : DerbyComponent) (container : Nat)
    (content : C) (opts : Nat) :
    renderReactComponentParams.all (fun pr => !pr.2) = true ∧
      docExampleArgCount + 1 = renderReactComponentParams.length ∧
      (renderReactComponent dom comp container content opts false).result
        = some dom.nextId := by
  exact ⟨by decide, by decide, rfl⟩

end DerbyReact
